import Mathlib

/-!
Verification of the Lambda entry-point module `src/lambda_handler.py`:
lazy one-time service initialization, event-origin classification
(`_is_function_url_event`), and dispatch to one of two Mangum adapters.

The embedding models Python/JSON values (`PyVal`), Python `dict.get` with
its AttributeError behaviour on non-mapping receivers, Python truthiness,
and the handler as an explicit state-passing function instrumented with a
trace of setup calls and adapter dispatches.
-/

namespace LambdaHandler

/-- Python/JSON values as they occur in a Lambda event payload. -/
inductive PyVal where
  | none
  | bool (b : Bool)
  | int (n : Int)
  | str (s : String)
  | list (xs : List PyVal)
  | dict (entries : List (String × PyVal))

/-- Python exceptions relevant to the module: `AttributeError` raised by
calling `.get` on a non-mapping, and an arbitrary exception raised by the
external `initialize_services` setup procedure. -/
inductive PyErr where
  | attributeError
  | raised (msg : String)
deriving DecidableEq

/-- Python truthiness (`bool(v)`), as used by `not stage` on line 55. -/
def truthy : PyVal → Bool
  | .none => false
  | .bool b => b
  | .int n => n != 0
  | .str s => s != ""
  | .list xs => !xs.isEmpty
  | .dict entries => !entries.isEmpty

/-- Lookup in a Python dict modelled as an association list
(`d.get(key, default)` for a mapping receiver). -/
def dictGet (entries : List (String × PyVal)) (key : String) (dflt : PyVal) : PyVal :=
  match entries.find? (fun p => p.1 == key) with
  | some p => p.2
  | none => dflt

/-- Python attribute call `v.get(key, default)`: succeeds when `v` is a
mapping, raises `AttributeError` otherwise (None, str, int, bool and list
have no `get` method). -/
def pyGetAttr (v : PyVal) (key : String) (dflt : PyVal) : Except PyErr PyVal :=
  match v with
  | .dict entries => .ok (dictGet entries key dflt)
  | _ => .error .attributeError

/-- Constant `FUNCTION_URL_STAGE = "$default"` (line 19). -/
def FUNCTION_URL_STAGE : String := "$default"

/-- Constant `API_GATEWAY_BASE_PATH = "/prod"` (line 18). -/
def API_GATEWAY_BASE_PATH : String := "/prod"

/-- Python equality `v == lit` for a string literal `lit`: true exactly for
an equal string; comparison of a non-string JSON value with a string is
`False` in Python (never an error). -/
def pyEqStrLit : PyVal → String → Bool
  | .str a, b => a == b
  | _, _ => false

/-- Embedding of `_is_function_url_event(event)` (lines 40-55):
`request_context = event.get("requestContext", {})`,
`stage = request_context.get("stage", "")`,
`return not stage or stage == FUNCTION_URL_STAGE`.
Exceptions propagate via `Except`. -/
def is_function_url_event (event : PyVal) : Except PyErr Bool :=
  match pyGetAttr event "requestContext" (.dict []) with
  | .error e => .error e
  | .ok request_context =>
    match pyGetAttr request_context "stage" (.str "") with
    | .error e => .error e
    | .ok stage => .ok (!truthy stage || pyEqStrLit stage FUNCTION_URL_STAGE)

/-- The value `event.get("requestContext", {}).get("stage", "")` that the
classifier resolves: the spec calls this the resolved stage. -/
def resolved_stage (event : PyVal) : Except PyErr PyVal :=
  match pyGetAttr event "requestContext" (.dict []) with
  | .error e => .error e
  | .ok request_context => pyGetAttr request_context "stage" (.str "")

/-- Configuration of a Mangum adapter instance: the `api_gateway_base_path`
keyword argument (`Option.none` when the argument is omitted, in which case
Mangum performs no prefix stripping — the empty base-path prefix). -/
structure Adapter where
  api_gateway_base_path : Option String
deriving DecidableEq

/-- Embedding of `_api_gateway_handler = Mangum(app, lifespan="off",
api_gateway_base_path=API_GATEWAY_BASE_PATH)` (lines 30-32): the adapter
configured with the Gateway base-path prefix. -/
def api_gateway_handler : Adapter := ⟨some API_GATEWAY_BASE_PATH⟩

/-- Embedding of `_function_url_handler = Mangum(app, lifespan="off")`
(line 34): the adapter with no base-path prefix configured. -/
def function_url_handler : Adapter := ⟨Option.none⟩

/-- Trace events recorded by the instrumented handler: each call of the
setup procedure `initialize_services` (with its outcome), and each dispatch
to an adapter (recording the adapter's configuration and the exact
arguments it receives). -/
inductive Ev where
  | setup_call (result : Except PyErr Unit)
  | dispatch_call (adapter : Adapter) (event : PyVal) (context : PyVal)

/-- Dispatch portion of `handler` (lines 83-86): classify the event and
invoke the matching Mangum adapter. The Mangum library itself is an
external collaborator, modelled as an arbitrary function `mangum` from an
adapter configuration and the `(event, context)` pair to a response value.
Returns the trace of dispatches together with the handler's result. -/
def dispatch_phase (mangum : Adapter → PyVal → PyVal → PyVal)
    (event context : PyVal) : List Ev × Except PyErr PyVal :=
  match is_function_url_event event with
  | .error e => ([], .error e)
  | .ok true =>
    ([.dispatch_call function_url_handler event context],
      .ok (mangum function_url_handler event context))
  | .ok false =>
    ([.dispatch_call api_gateway_handler event context],
      .ok (mangum api_gateway_handler event context))

/-- Embedding of `handler(event, context)` (lines 58-86). The module-level
flag `_services_initialized` is passed in and returned explicitly. The
external setup procedure `initialize_services` is modelled by its outcome
`setup` for this invocation (`.ok ()` = returns, `.error e` = raises `e`).
Source order is preserved: when the flag is false the setup runs first; the
flag is set to true only after setup returns successfully; classification
and dispatch follow. Returns the new flag value, the instrumentation
trace, and the invocation's result. -/
def handler (setup : Except PyErr Unit) (mangum : Adapter → PyVal → PyVal → PyVal)
    (services_initialized : Bool) (event context : PyVal) :
    Bool × List Ev × Except PyErr PyVal :=
  if services_initialized then
    (true, dispatch_phase mangum event context)
  else
    match setup with
    | .error e => (false, [.setup_call (.error e)], .error e)
    | .ok _ =>
      let dr := dispatch_phase mangum event context
      (true, .setup_call (.ok ()) :: dr.1, dr.2)

/-- Sequential execution of a list of invocations against one process
lifetime: each invocation supplies the setup outcome it would observe and
its `(event, context)` pair. Returns the final flag value and the
concatenated trace. -/
def run (mangum : Adapter → PyVal → PyVal → PyVal) :
    Bool → List (Except PyErr Unit × PyVal × PyVal) → Bool × List Ev
  | st, [] => (st, [])
  | st, inv :: rest =>
    let r := handler inv.1 mangum st inv.2.1 inv.2.2
    let rest' := run mangum r.1 rest
    (rest'.1, r.2.1 ++ rest'.2)

/-- Recognizer for setup events in a trace. -/
def is_setup_ev : Ev → Bool
  | .setup_call _ => true
  | .dispatch_call _ _ _ => false

/-- Number of calls of the setup procedure recorded in a trace. -/
def setup_calls (tr : List Ev) : Nat := (tr.filter is_setup_ev).length

/-! Helper lemmas shared by the claim theorems. -/

/-- The classifier is exactly the decision function applied to the resolved
stage value: it reads nothing else of the event. -/
theorem is_function_url_event_eq_map (event : PyVal) :
    is_function_url_event event
      = (resolved_stage event).map
          (fun stage => !truthy stage || pyEqStrLit stage FUNCTION_URL_STAGE) := by
  unfold is_function_url_event resolved_stage
  cases pyGetAttr event "requestContext" (.dict []) with
  | error e => rfl
  | ok request_context =>
    dsimp only
    cases pyGetAttr request_context "stage" (.str "") <;> rfl

/-- A dispatch phase records no setup call. -/
theorem setup_calls_dispatch_phase (mangum : Adapter → PyVal → PyVal → PyVal)
    (event context : PyVal) :
    setup_calls (dispatch_phase mangum event context).1 = 0 := by
  unfold dispatch_phase
  cases h : is_function_url_event event with
  | error e => simp [setup_calls]
  | ok b => cases b <;> simp [setup_calls, List.filter, is_setup_ev]

/-- Counting setup calls distributes over trace concatenation. -/
theorem setup_calls_append (t1 t2 : List Ev) :
    setup_calls (t1 ++ t2) = setup_calls t1 + setup_calls t2 := by
  simp [setup_calls, List.filter_append]

/-- Once the flag is true, the handler never resets it. -/
theorem handler_flag_monotone (s : Except PyErr Unit)
    (mangum : Adapter → PyVal → PyVal → PyVal) (e c : PyVal) :
    (handler s mangum true e c).1 = true := rfl

/-- A run starting from an initialized process stays initialized and never
calls setup again. -/
theorem run_from_ready (mangum : Adapter → PyVal → PyVal → PyVal)
    (invs : List (Except PyErr Unit × PyVal × PyVal)) :
    (run mangum true invs).1 = true ∧ setup_calls (run mangum true invs).2 = 0 := by
  induction invs with
  | nil => exact ⟨rfl, rfl⟩
  | cons inv rest ih =>
    have hh : handler inv.1 mangum true inv.2.1 inv.2.2
        = (true, dispatch_phase mangum inv.2.1 inv.2.2) := rfl
    simp only [run, hh, setup_calls_append]
    exact ⟨ih.1, by rw [setup_calls_dispatch_phase, ih.2]⟩

/-- A setup event at the head of a trace adds one to the setup-call count. -/
theorem setup_calls_cons_setup (r : Except PyErr Unit) (t : List Ev) :
    setup_calls (.setup_call r :: t) = setup_calls t + 1 := by
  simp [setup_calls, List.filter_cons, is_setup_ev]

/-! Claim theorems about initialization and dispatch. -/

/-- Claim C1: in any nonempty sequence of sequential invocations within one
process lifetime in which the setup procedure never fails,
`initialize_services` is called exactly once, on the first invocation and
before any dispatch to an adapter (the setup call heads the trace), the
final flag is true, and the flag, once true, is never reset by a further
invocation. -/
theorem C1_exactly_once_init (mangum : Adapter → PyVal → PyVal → PyVal)
    (invs : List (Except PyErr Unit × PyVal × PyVal))
    (hne : invs ≠ [])
    (hok : ∀ inv ∈ invs, inv.1 = Except.ok ()) :
    (run mangum false invs).1 = true
    ∧ setup_calls (run mangum false invs).2 = 1
    ∧ (run mangum false invs).2.head? = some (.setup_call (.ok ()))
    ∧ (∀ s e c, (handler s mangum true e c).1 = true) := by
  cases invs with
  | nil => exact absurd rfl hne
  | cons inv rest =>
    obtain ⟨s0, e0, c0⟩ := inv
    have h1 : s0 = Except.ok () := hok (s0, e0, c0) (List.mem_cons_self _ _)
    subst h1
    have hrun : run mangum false ((Except.ok (), e0, c0) :: rest)
        = ((run mangum true rest).1,
            (Ev.setup_call (.ok ()) :: (dispatch_phase mangum e0 c0).1)
              ++ (run mangum true rest).2) := rfl
    rw [hrun]
    refine ⟨(run_from_ready mangum rest).1, ?_, rfl, fun s e c => rfl⟩
    rw [setup_calls_append, setup_calls_cons_setup, setup_calls_dispatch_phase,
      (run_from_ready mangum rest).2]

/-- Witness for C1: a one-invocation lifetime with succeeding setup calls
setup exactly once, with the setup call heading the trace. -/
theorem C1_exactly_once_init_witness :
    (run (fun _ _ _ => PyVal.none) false [(Except.ok (), PyVal.dict [], PyVal.none)]).1 = true
    ∧ setup_calls
        (run (fun _ _ _ => PyVal.none) false [(Except.ok (), PyVal.dict [], PyVal.none)]).2 = 1
    ∧ (run (fun _ _ _ => PyVal.none) false
        [(Except.ok (), PyVal.dict [], PyVal.none)]).2.head?
        = some (.setup_call (.ok ())) := by
  have h := C1_exactly_once_init (fun _ _ _ => PyVal.none)
    [(Except.ok (), PyVal.dict [], PyVal.none)]
    (fun hc => List.noConfusion hc)
    (by intro inv hm; rw [List.mem_singleton] at hm; rw [hm])
  exact ⟨h.1, h.2.1, h.2.2.1⟩

/-- Claim C2: if the setup procedure raises on an invocation that finds the
flag false, the flag remains false, no dispatch occurs (the trace holds
only the failed setup call), the same error propagates out of `handler`,
and the next invocation re-attempts setup first (its trace begins with a
setup call whatever that attempt's outcome). -/
theorem C2_setup_failure_retry (mangum : Adapter → PyVal → PyVal → PyVal)
    (err : PyErr) (e c e2 c2 : PyVal) (s2 : Except PyErr Unit) :
    handler (.error err) mangum false e c
      = (false, [.setup_call (.error err)], .error err)
    ∧ (handler s2 mangum false e2 c2).2.1.head? = some (.setup_call s2) := by
  refine ⟨rfl, ?_⟩
  cases s2 with
  | error e' => rfl
  | ok u => cases u; rfl

/-- Claim C5: after successful initialization, a GatewayOrigin-classified
event is dispatched to exactly the adapter constructed with the Gateway
base-path prefix "/prod", and a FunctionOrigin-classified event to exactly
the adapter constructed with no base-path prefix; the trace contains that
one dispatch and never the other adapter's. -/
theorem C5_dispatch_selection (s : Except PyErr Unit)
    (mangum : Adapter → PyVal → PyVal → PyVal) (e c : PyVal) (b : Bool)
    (h : is_function_url_event e = .ok b) :
    (handler s mangum true e c).2.1
      = [.dispatch_call (if b then function_url_handler else api_gateway_handler) e c]
    ∧ function_url_handler.api_gateway_base_path = Option.none
    ∧ api_gateway_handler.api_gateway_base_path = some API_GATEWAY_BASE_PATH := by
  refine ⟨?_, rfl, rfl⟩
  have hx : (handler s mangum true e c).2.1 = (dispatch_phase mangum e c).1 := rfl
  rw [hx]
  unfold dispatch_phase
  rw [h]
  cases b <;> rfl

/-- Witness for C5: an event with stage "prod" is dispatched to the
Gateway adapter. -/
theorem C5_dispatch_selection_witness :
    (handler (.ok ()) (fun _ _ _ => PyVal.none) true
        (.dict [("requestContext", .dict [("stage", .str "prod")])]) .none).2.1
      = [.dispatch_call (if false then function_url_handler else api_gateway_handler)
          (.dict [("requestContext", .dict [("stage", .str "prod")])]) .none]
    ∧ function_url_handler.api_gateway_base_path = Option.none
    ∧ api_gateway_handler.api_gateway_base_path = some API_GATEWAY_BASE_PATH :=
  C5_dispatch_selection (.ok ()) (fun _ _ _ => PyVal.none)
    (.dict [("requestContext", .dict [("stage", .str "prod")])]) .none false rfl

/-- Claim C6: the value returned by `handler` is exactly the selected
adapter's return value, unmodified, for every event, context, and every
possible adapter behaviour (hence every possible return value). -/
theorem C6_pass_through (s : Except PyErr Unit)
    (mangum : Adapter → PyVal → PyVal → PyVal) (e c : PyVal) (b : Bool)
    (h : is_function_url_event e = .ok b) :
    (handler s mangum true e c).2.2
      = .ok (mangum (if b then function_url_handler else api_gateway_handler) e c) := by
  have hx : (handler s mangum true e c).2.2 = (dispatch_phase mangum e c).2 := rfl
  rw [hx]
  unfold dispatch_phase
  rw [h]
  cases b <;> rfl

/-- Witness for C6: with an adapter behaviour that echoes the event, the
handler returns the event unmodified. -/
theorem C6_pass_through_witness :
    (handler (.ok ()) (fun _ ev _ => ev) true (.dict []) (.int 3)).2.2
      = .ok (.dict []) :=
  C6_pass_through (.ok ()) (fun _ ev _ => ev) (.dict []) (.int 3) true rfl

/-- Within a dispatch phase, every recorded dispatch passes the adapter
exactly the original event and context. -/
theorem dispatch_args_exact (mangum : Adapter → PyVal → PyVal → PyVal)
    (e c : PyVal) (a : Adapter) (e' c' : PyVal)
    (h : Ev.dispatch_call a e' c' ∈ (dispatch_phase mangum e c).1) :
    e' = e ∧ c' = c := by
  unfold dispatch_phase at h
  cases hc : is_function_url_event e with
  | error err => rw [hc] at h; simp at h
  | ok b =>
    rw [hc] at h
    cases b <;> simp at h <;> exact ⟨h.2.1, h.2.2⟩

/-- Claim C7: the handler's core mutates nothing: the selected adapter
receives exactly the original event and context values (classification only
reads the event, and dispatch passes both through unchanged). -/
theorem C7_no_mutation (s : Except PyErr Unit)
    (mangum : Adapter → PyVal → PyVal → PyVal) (st : Bool) (e c : PyVal)
    (a : Adapter) (e' c' : PyVal)
    (h : Ev.dispatch_call a e' c' ∈ (handler s mangum st e c).2.1) :
    e' = e ∧ c' = c := by
  cases st with
  | true =>
    have hx : (handler s mangum true e c).2.1 = (dispatch_phase mangum e c).1 := rfl
    rw [hx] at h
    exact dispatch_args_exact mangum e c a e' c' h
  | false =>
    cases s with
    | error err =>
      have hx : (handler (.error err) mangum false e c).2.1
          = [.setup_call (.error err)] := rfl
      rw [hx] at h
      simp at h
    | ok u =>
      cases u
      have hx : (handler (.ok ()) mangum false e c).2.1
          = .setup_call (.ok ()) :: (dispatch_phase mangum e c).1 := rfl
      rw [hx] at h
      rcases List.mem_cons.mp h with h1 | h2
      · exact Ev.noConfusion h1
      · exact dispatch_args_exact mangum e c a e' c' h2

/-- Witness for C7: a concrete dispatch receives exactly the original
arguments. -/
theorem C7_no_mutation_witness :
    PyVal.dict [] = PyVal.dict [] ∧ PyVal.int 7 = PyVal.int 7 :=
  C7_no_mutation (.ok ()) (fun _ _ _ => PyVal.none) true (.dict []) (.int 7)
    function_url_handler (.dict []) (.int 7) (List.Mem.head _)

/-! Claim theorems about the event classifier. -/

/-- Claim C3: for every event whose resolved `requestContext.stage` value
(missing field resolving to the empty string) is a string `s`, the
classifier returns FunctionOrigin (`true`) exactly when `s` is empty or the
reserved literal `"$default"`, and GatewayOrigin (`false`) for every other
non-empty string. -/
theorem C3_stage_classification (event : PyVal) (s : String)
    (h : resolved_stage event = .ok (.str s)) :
    is_function_url_event event = .ok (s == "" || s == "$default") := by
  rw [is_function_url_event_eq_map, h]
  simp [Except.map, truthy, pyEqStrLit, FUNCTION_URL_STAGE, bne]

/-- Witness for C3: the stage `"prod"` resolves and is classified as
GatewayOrigin. -/
theorem C3_stage_classification_witness :
    is_function_url_event (.dict [("requestContext", .dict [("stage", .str "prod")])])
      = .ok false :=
  C3_stage_classification (.dict [("requestContext", .dict [("stage", .str "prod")])]) "prod" rfl

/-- Counterexample for C4: the event `{"requestContext": "v1"}` is
mapping-shaped, yet the classifier raises `AttributeError` (Python:
`"v1".get` does not exist) instead of returning a FunctionOrigin result. -/
theorem C4_counterexample :
    is_function_url_event (.dict [("requestContext", .str "v1")]) = .error .attributeError
    ∧ is_function_url_event (.dict [("requestContext", .str "v1")]) ≠ .ok true :=
  ⟨rfl, fun h => Except.noConfusion h⟩

/-- Claim C4 (amended): the classifier is total over mapping-shaped events
whose `requestContext` field, after defaulting to the empty mapping when
absent, is itself a mapping; in particular an absent `requestContext`
classifies as FunctionOrigin. (A present non-mapping `requestContext`
raises `AttributeError`, per the counterexample.) -/
theorem C4_totality_on_mapping_context (entries rc : List (String × PyVal))
    (h : dictGet entries "requestContext" (.dict []) = .dict rc) :
    is_function_url_event (.dict entries)
      = .ok (!truthy (dictGet rc "stage" (.str ""))
          || pyEqStrLit (dictGet rc "stage" (.str "")) FUNCTION_URL_STAGE) := by
  unfold is_function_url_event
  simp [pyGetAttr, h]

/-- Witness for C4 (amended): the empty event has no `requestContext` and
is classified as FunctionOrigin. -/
theorem C4_totality_witness :
    is_function_url_event (.dict []) = .ok true :=
  C4_totality_on_mapping_context [] [] rfl

/-- Claim C9: classification depends only on the resolved
`requestContext.stage` value — two events with the same resolved stage
(or both failing to resolve it the same way) classify identically; as a
function of the event, the classifier is deterministic by definition. -/
theorem C9_depends_only_on_stage (e1 e2 : PyVal)
    (h : resolved_stage e1 = resolved_stage e2) :
    is_function_url_event e1 = is_function_url_event e2 := by
  rw [is_function_url_event_eq_map, is_function_url_event_eq_map, h]

/-- Witness for C9: two events agreeing on the stage but differing in
every other field classify identically. -/
theorem C9_depends_only_on_stage_witness :
    is_function_url_event
        (.dict [("requestContext", .dict [("stage", .str "$default")]), ("rawPath", .str "/a")])
      = is_function_url_event
        (.dict [("requestContext", .dict [("stage", .str "$default"), ("http", .none)])]) :=
  C9_depends_only_on_stage
    (.dict [("requestContext", .dict [("stage", .str "$default")]), ("rawPath", .str "/a")])
    (.dict [("requestContext", .dict [("stage", .str "$default"), ("http", .none)])]) rfl

/-- Claim C10: a present but falsy non-string stage value (None, 0, False,
an empty container) classifies as FunctionOrigin, because line 55 tests
Python truthiness (`not stage`), not string equality with the empty
string. -/
theorem C10_falsy_nonstring_stage (entries rc : List (String × PyVal)) (v : PyVal)
    (h1 : dictGet entries "requestContext" (.dict []) = .dict rc)
    (h2 : dictGet rc "stage" (.str "") = v)
    (h3 : truthy v = false) :
    is_function_url_event (.dict entries) = .ok true := by
  unfold is_function_url_event
  simp [pyGetAttr, h1, h2, h3]

/-- Witness for C10: stage value `0` (falsy, non-string) classifies as
FunctionOrigin. -/
theorem C10_falsy_nonstring_stage_witness :
    is_function_url_event (.dict [("requestContext", .dict [("stage", .int 0)])]) = .ok true :=
  C10_falsy_nonstring_stage [("requestContext", .dict [("stage", .int 0)])]
    [("stage", .int 0)] (.int 0) rfl rfl rfl

/-! Interleaving model for concurrent invocation of `handler` within one
process. Each thread executes the statements of lines 76-86 of the source;
there is no lock or single-flight guard anywhere in the module, so every
interleaving of the two threads' atomic steps is possible. -/

/-- Program counter of one in-flight invocation of `handler`:
`check_flag` is the test `if not _services_initialized` (line 76),
`setup_enter` is about to call `initialize_services()` (line 78),
`setup_running` is inside that call, `set_flag` is the assignment
`_services_initialized = True` (line 79), `dispatch_step` is the routing of
lines 83-86, `done_step` is a returned invocation. -/
inductive TPc where
  | check_flag
  | setup_enter
  | setup_running
  | set_flag
  | dispatch_step
  | done_step
deriving DecidableEq

/-- Shared state of two concurrent invocations: the module-level flag, the
number of times `initialize_services` has been entered, and each thread's
program counter. -/
structure CState where
  services_initialized : Bool
  setup_count : Nat
  pc0 : TPc
  pc1 : TPc
deriving DecidableEq

/-- One atomic step of a thread at program counter `pc` against the shared
flag, returning the new counter, flag, and setup-entry count. -/
def thread_step (pc : TPc) (flag : Bool) (count : Nat) : TPc × Bool × Nat :=
  match pc with
  | .check_flag => (if flag then .dispatch_step else .setup_enter, flag, count)
  | .setup_enter => (.setup_running, flag, count + 1)
  | .setup_running => (.set_flag, flag, count)
  | .set_flag => (.dispatch_step, true, count)
  | .dispatch_step => (.done_step, flag, count)
  | .done_step => (.done_step, flag, count)

/-- Scheduler step: run one atomic step of thread 0 (`tid = false`) or
thread 1 (`tid = true`). -/
def cstep (tid : Bool) (s : CState) : CState :=
  if tid then
    let r := thread_step s.pc1 s.services_initialized s.setup_count
    { s with pc1 := r.1, services_initialized := r.2.1, setup_count := r.2.2 }
  else
    let r := thread_step s.pc0 s.services_initialized s.setup_count
    { s with pc0 := r.1, services_initialized := r.2.1, setup_count := r.2.2 }

/-- Run a schedule (a list of thread choices) from a state. -/
def crun (sched : List Bool) (s : CState) : CState :=
  sched.foldl (fun acc tid => cstep tid acc) s

/-- Initial state of a cold process with two invocations arriving. -/
def cinit : CState := ⟨false, 0, .check_flag, .check_flag⟩

/-- An interleaved schedule: both threads pass the flag check before either
enters setup. -/
def c8_interleaved : List Bool := [false, true, false, true]

/-- A sequential schedule: thread 0 runs to completion, then thread 1. -/
def c8_sequential : List Bool := [false, false, false, false, false, true, true]

/-- Counterexample for C8: the module has no mutex or single-flight guard,
so under the interleaved schedule both concurrent invocations are inside
`initialize_services` at the same time and setup has been entered twice. -/
theorem C8_counterexample :
    (crun c8_interleaved cinit).pc0 = .setup_running
    ∧ (crun c8_interleaved cinit).pc1 = .setup_running
    ∧ (crun c8_interleaved cinit).setup_count = 2 := by
  decide

/-- Claim C8 (amended): the handler contains no serialization of first-call
setup, so a concurrent schedule exists under which setup executes twice and
concurrently; only when invocations are sequential (each completing before
the next begins, the target platform's normal mode) does setup run exactly
once, with the two threads never simultaneously inside setup. -/
theorem C8_no_serialization (k : Nat) (hk : k ≤ c8_sequential.length) :
    ((crun c8_interleaved cinit).setup_count = 2
      ∧ (crun c8_interleaved cinit).pc0 = .setup_running
      ∧ (crun c8_interleaved cinit).pc1 = .setup_running)
    ∧ ((crun c8_sequential cinit).setup_count = 1
      ∧ (crun c8_sequential cinit).services_initialized = true
      ∧ (crun c8_sequential cinit).pc0 = .done_step
      ∧ (crun c8_sequential cinit).pc1 = .done_step)
    ∧ ¬((crun (c8_sequential.take k) cinit).pc0 = .setup_running
        ∧ (crun (c8_sequential.take k) cinit).pc1 = .setup_running) := by
  refine ⟨by decide, by decide, ?_⟩
  have hk7 : k ≤ 7 := by simpa [c8_sequential] using hk
  interval_cases k <;> decide

/-- Witness for C8 (amended): the no-double-setup property of sequential
schedules holds at the full schedule length. -/
theorem C8_no_serialization_witness :
    ¬((crun (c8_sequential.take 7) cinit).pc0 = .setup_running
      ∧ (crun (c8_sequential.take 7) cinit).pc1 = .setup_running) :=
  (C8_no_serialization 7 (by decide)).2.2

end LambdaHandler
